import Mathlib

/-!
Shallow embedding of the core-rust-qti authentication / session /
permission-grant logic (src/src/core/security.rs, src/src/core/session.rs,
src/src/repository/*.rs, src/src/route/auth.rs, src/src/route/role_permission.rs,
src/src/route/permission.rs, src/src/route/user.rs), together with theorems
settling the frozen specification claims.

Modelling conventions:
* `Uuid` is modelled as `Nat`; `Uuid::parse_str` is `uuidParse := String.toNat?`
  (an injective partial parser, `Uuid.to_string` being `toString`).
* Timestamps (`chrono::DateTime<FixedOffset>` columns and unix-second `exp`
  claims) are modelled as `Int` unix seconds; `Duration::minutes m` adds
  `m * 60` seconds.
* JWT serialization is injective, so a signed token string is represented by
  its decoded structure `Jwt`; the HMAC is ideal: a signature verifies
  exactly when it was produced from the same secret and payload.
* The argon2 PHC digest string is modelled as a self-describing string
  `"$argon2id$v=19$<salt>$<hash-of-password>"` whose hash part is recoverable,
  an ideal collision-free hash; `PasswordHash::new` on a string not of this
  shape fails, as in argon2's parser.
* `jsonwebtoken`'s `Validation::default()` validates `exp` with its default
  leeway of 60 seconds; `decode::<T>` ignores unknown payload fields and
  fails when a field required by `T` is absent, as serde does.
* Redis is an association map from token keys to stored values; the values
  written by `add_session` are `SessionData` JSON and `serde_json` round
  trips, so stored values are modelled as `SessionData` directly.
* SQL queries over a table are modelled as list operations on the rows:
  `WHERE` is `filter`, `ORDER BY updated_date DESC` is a stable sort on the
  key (with SQL null ordered first, Postgres `DESC` default), `LIMIT`/`OFFSET`
  are `take`/`drop`, fallible calls return `Except String _` mirroring
  `anyhow::Result`.
-/

/-- settings.rs `Config`: the token/session configuration fields.
(The transport-only fields `env`, `host`, `port`, `prefix`, `database_url`,
`redis_url` play no part in the embedded logic and are omitted.)
`jwt_exp` and `jwt_refresh_exp` are `u16` minute counts. -/
structure Config where
  jwt_secret : String
  jwt_exp : Nat
  jwt_refresh_exp : Nat
deriving DecidableEq, Repr

/-- security.rs `Claims`: the access-token claims. -/
structure Claims where
  id : String
  user_name : String
  exp : Int
deriving DecidableEq, Repr

/-- security.rs `Claims::new`: `exp = (Local::now() + Duration::minutes(config.jwt_exp)).timestamp()`. -/
def Claims.new (user_id user_name : String) (config : Config) (now : Int) : Claims :=
  { id := user_id, user_name := user_name, exp := now + (config.jwt_exp : Int) * 60 }

/-- security.rs `ClaimsRefresh`: the refresh-token claims. -/
structure ClaimsRefresh where
  id : String
  user_name : String
  exp : Int
  type_key : String
deriving DecidableEq, Repr

/-- security.rs `ClaimsRefresh::new`: refresh expiry from `jwt_refresh_exp` minutes,
`type_key = "refresh"`. -/
def ClaimsRefresh.new (user_id user_name : String) (config : Config) (now : Int) : ClaimsRefresh :=
  { id := user_id, user_name := user_name,
    exp := now + (config.jwt_refresh_exp : Int) * 60, type_key := "refresh" }

/-- The JSON payload of a signed token. `type_key` is present on refresh tokens
and absent on access tokens; serde ignores it when deserializing `Claims` and
requires it when deserializing `ClaimsRefresh`. -/
structure JwtPayload where
  id : String
  user_name : String
  exp : Int
  type_key : Option String
deriving DecidableEq, Repr

/-- A signed JWT, identified with its (injectively serialized) token string.
`sig` is the ideal HMAC of the payload under the signing secret. -/
structure Jwt where
  payload : JwtPayload
  sig : String × JwtPayload
deriving DecidableEq, Repr

/-- Ideal symmetric MAC: the signature determines (and is determined by) the
signing secret and the signed payload. -/
def hmacSign (secret : String) (payload : JwtPayload) : String × JwtPayload :=
  (secret, payload)

/-- `jsonwebtoken::Validation::default()` leeway, in seconds. -/
def jwtLeeway : Int := 60

/-- security.rs `encode_token`. -/
def encode_token (claims : Claims) (jwt_secret : String) : Jwt :=
  let payload : JwtPayload := ⟨claims.id, claims.user_name, claims.exp, none⟩
  ⟨payload, hmacSign jwt_secret payload⟩

/-- security.rs `decode_token`: `decode::<Claims>(token, key, &Validation::default())`.
Signature is verified, then `exp` is validated against `now` with the default
60-second leeway; the `type_key` field, if present, is ignored by serde. -/
def decode_token (token : Jwt) (jwt_secret : String) (now : Int) : Except String Claims :=
  if token.sig ≠ hmacSign jwt_secret token.payload then .error "InvalidSignature"
  else if token.payload.exp < now - jwtLeeway then .error "ExpiredSignature"
  else .ok ⟨token.payload.id, token.payload.user_name, token.payload.exp⟩

/-- security.rs `encode_refresh_token`. -/
def encode_refresh_token (claims : ClaimsRefresh) (jwt_secret : String) : Jwt :=
  let payload : JwtPayload := ⟨claims.id, claims.user_name, claims.exp, some claims.type_key⟩
  ⟨payload, hmacSign jwt_secret payload⟩

/-- security.rs `decode_refresh_token`: `decode::<ClaimsRefresh>(...)`; serde fails
when the payload has no `type_key` field. -/
def decode_refresh_token (token : Jwt) (jwt_secret : String) (now : Int) :
    Except String ClaimsRefresh :=
  if token.sig ≠ hmacSign jwt_secret token.payload then .error "InvalidSignature"
  else
    match token.payload.type_key with
    | none => .error "missing field type_key"
    | some tk =>
      if token.payload.exp < now - jwtLeeway then .error "ExpiredSignature"
      else .ok ⟨token.payload.id, token.payload.user_name, token.payload.exp, tk⟩

/-- model/user.rs `Uuid` columns: ids are modelled as naturals. -/
abbrev Uuid := Nat

/-- core/security.rs `Uuid::parse_str` over the model: partial inverse of
`toString`, accepting exactly the decimal digit strings. -/
def uuidParse (s : String) : Option Uuid :=
  if s.data ≠ [] ∧ s.data.all (fun c => c.isDigit) then
    some (s.data.foldl (fun n c => n * 10 + (c.toNat - 48)) 0)
  else none

/-- security.rs `hash_password`: argon2id PHC digest with a fresh `salt`, modelled
as an ideal self-describing digest string recomputable from salt and password. -/
def hash_password (password salt : String) : String :=
  "$argon2id$v=19$" ++ salt ++ "$" ++ password

/-- Split a character list at every `'$'` (the semantics of
`String.splitOn "$"`, written structurally). -/
def splitOnDollar : List Char → List (List Char)
  | [] => [[]]
  | c :: rest =>
    match splitOnDollar rest with
    | [] => [[c]]
    | g :: gs => if c = '$' then [] :: g :: gs else (c :: g) :: gs

/-- security.rs `verify_hash_password`: parse the PHC string (`PasswordHash::new`,
erroring on malformed digests) and recompute-compare. -/
def verify_hash_password (password password_hash : String) : Except String Bool :=
  match (splitOnDollar password_hash.data).map (fun g => String.mk g) with
  | ["", "argon2id", "v=19", _salt, h] => .ok (h = password)
  | _ => .error "password hash error"

/-- model/user.rs `User`. -/
structure User where
  id : Uuid
  user_name : String
  password : String
  is_active : Option Bool
  is_2faenabled : Option Bool
  created_by : Option Uuid
  updated_by : Option Uuid
  created_date : Option Int
  updated_date : Option Int
  deleted_date : Option Int
deriving DecidableEq, Repr

/-- model/user_profile.rs `UserProfile`. -/
structure UserProfile where
  id : Uuid
  user_id : Uuid
  first_name : Option String
  last_name : Option String
  address : Option String
  email : Option String
deriving DecidableEq, Repr

/-- model/role.rs `Role`. -/
structure Role where
  id : Uuid
  role_name : String
  description : Option String
  is_active : Option Bool
  created_by : Option Uuid
  updated_by : Option Uuid
  created_date : Option Int
  updated_date : Option Int
  deleted_date : Option Int
deriving DecidableEq, Repr

/-- model/permission.rs `Permission`. -/
structure Permission where
  id : Uuid
  permission_name : String
  is_user : Option Bool
  is_role : Option Bool
  is_group : Option Bool
  description : Option String
  created_by : Option Uuid
  updated_by : Option Uuid
  created_date : Option Int
  updated_date : Option Int
deriving DecidableEq, Repr

/-- model/permission_attribute.rs `PermissionAttribute`. -/
structure PermissionAttribute where
  id : Uuid
  name : String
  description : Option String
  created_date : Option Int
  updated_date : Option Int
deriving DecidableEq, Repr

/-- model/role_permission.rs `RolePermission`. -/
structure RolePermission where
  role_id : Uuid
  permission_id : Uuid
  attribute_id : Uuid
  created_by : Option Uuid
  updated_by : Option Uuid
  created_date : Option Int
  updated_date : Option Int
deriving DecidableEq, Repr

/-- model/permission_attribute_list.rs `PermissionAttributeList`. -/
structure PermissionAttributeList where
  permission_id : Uuid
  attribute_id : Uuid
deriving DecidableEq, Repr

/-- model/user_group_roles.rs `UserGroupRoles`. -/
structure UserGroupRoles where
  id : Uuid
  user_id : Option Uuid
  group_id : Option Uuid
  role_id : Option Uuid
deriving DecidableEq, Repr

/-- The relational store: one row list per table the claims touch. -/
structure Db where
  users : List User
  user_profiles : List UserProfile
  roles : List Role
  permissions : List Permission
  permission_attributes : List PermissionAttribute
  role_permissions : List RolePermission
  permission_attribute_list : List PermissionAttributeList
  user_group_roles : List UserGroupRoles
deriving DecidableEq, Repr

/-- session.rs `SessionData`; `refresh_token` holds the paired refresh-token string. -/
structure SessionData where
  user_id : String
  refresh_token : Jwt
deriving DecidableEq, Repr

/-- The Redis keyspace used by session.rs: token-string keys to stored session JSON. -/
abbrev RedisStore := List (Jwt × SessionData)

/-- `redis GET key`. -/
def redisGet (store : RedisStore) (key : Jwt) : Option SessionData :=
  (store.find? (fun e => decide (e.1 = key))).map (fun e => e.2)

/-- `redis SET key val EX ttl`: upsert, overwriting any entry under the key.
The backend-enforced TTL countdown itself is outside the state model; the
`ttl_seconds` argument is what the claims inspect. -/
def redisSetEx (store : RedisStore) (key : Jwt) (val : SessionData)
    (_ttl_seconds : Nat) : RedisStore :=
  (key, val) :: store.filter (fun e => decide (e.1 ≠ key))

/-- `redis DEL key`. -/
def redisDel (store : RedisStore) (key : Jwt) : RedisStore :=
  store.filter (fun e => decide (e.1 ≠ key))

/-- session.rs `add_session`: `set_ex(token, session_json, config.jwt_exp as u64)`.
Returns the updated store and the TTL argument passed to `SET .. EX`
(the raw `config.jwt_exp` value, in Redis seconds). -/
def add_session (store : RedisStore) (user : User) (config : Config)
    (token : Jwt) (refresh_token : Jwt) : RedisStore × Nat :=
  let session_data : SessionData := ⟨toString user.id, refresh_token⟩
  (redisSetEx store token session_data config.jwt_exp, config.jwt_exp)

/-- session.rs `get_session`. -/
def get_session (store : RedisStore) (token : Jwt) : Option SessionData :=
  redisGet store token

/-- session.rs `remove_session`: miss returns `false`; on hit, `DEL` the stored
`refresh_token` key, then `DEL` the access-token key, and return `true`. -/
def remove_session (store : RedisStore) (token : Jwt) : RedisStore × Bool :=
  match redisGet store token with
  | none => (store, false)
  | some session_data =>
    (redisDel (redisDel store session_data.refresh_token) token, true)

/-- repository/user.rs `get_user_by_username`: `SELECT * FROM public.user WHERE
user_name = $1` (no soft-delete filter in this query), then the profile by
`user_id`. -/
def get_user_by_username (db : Db) (username : String) :
    Option User × Option UserProfile :=
  match db.users.find? (fun u => decide (u.user_name = username)) with
  | none => (none, none)
  | some u => (some u, db.user_profiles.find? (fun p => decide (p.user_id = u.id)))

/-- repository/user.rs `get_user_by_id`: `id = $1` plus `deleted_date is null`
when `exclude_soft_delete` (default `true`); profile by `user_id = $1`. -/
def get_user_by_id (db : Db) (id : Uuid) (exclude_soft_delete : Option Bool) :
    Option User × Option UserProfile :=
  let ex := exclude_soft_delete.getD true
  let user := db.users.find? (fun u => decide (u.id = id) && (!ex || u.deleted_date.isNone))
  let user_profile := db.user_profiles.find? (fun p => decide (p.user_id = id))
  (user, user_profile)

/-- security.rs `generate_token_from_user`. -/
def generate_token_from_user (user : User) (config : Config) (now : Int) : Jwt :=
  encode_token (Claims.new (toString user.id) user.user_name config now) config.jwt_secret

/-- security.rs `generate_refresh_token_from_user`. -/
def generate_refresh_token_from_user (user : User) (config : Config) (now : Int) : Jwt :=
  encode_refresh_token (ClaimsRefresh.new (toString user.id) user.user_name config now)
    config.jwt_secret

/-- security.rs `get_user_from_token`: session lookup, parse the stored
`user_id`, then load the user (the call site uses the repository's
soft-delete-excluding default). Parse failures propagate as errors (`?`). -/
def get_user_from_token (db : Db) (store : RedisStore) (jwt_token : Option Jwt) :
    Except String (Option User) :=
  match jwt_token with
  | none => .ok none
  | some token =>
    match get_session store token with
    | none => .ok none
    | some session =>
      match uuidParse session.user_id with
      | none => .error "invalid uuid"
      | some user_id => .ok (get_user_by_id db user_id none).1

/-- security.rs `get_user_from_refresh_token`: cryptographic decode (`?` on
failure), parse the claim id, then load the user. -/
def get_user_from_refresh_token (db : Db) (refresh_token : Option Jwt)
    (config : Config) (now : Int) : Except String (Option User) :=
  match refresh_token with
  | none => .ok none
  | some tok =>
    match decode_refresh_token tok config.jwt_secret now with
    | .error e => .error e
    | .ok claims =>
      match uuidParse claims.id with
      | none => .error "invalid uuid"
      | some user_id => .ok (get_user_by_id db user_id none).1

/-- Modelled from the spec: `schema::common` is referenced by every route module
but absent from the sources; per the error taxonomy a bad-request rejection
carries a user-visible message. -/
structure BadRequestResponse where
  message : String
deriving DecidableEq, Repr

/-- Modelled from the spec: `schema::common::NotFoundResponse`, carrying the
message naming the missing entity. -/
structure NotFoundResponse where
  message : String
deriving DecidableEq, Repr

/-- Modelled from the spec: `schema::common::UnauthorizedResponse`, built via
`Default` with a generic unauthorized message. -/
structure UnauthorizedResponse where
  message : String
deriving DecidableEq, Repr

/-- Modelled from the spec: `UnauthorizedResponse::default()`. -/
def UnauthorizedResponse.mkDefault : UnauthorizedResponse :=
  ⟨"Unauthorized"⟩

/-- Modelled from the spec: `schema::common::InternalServerErrorResponse`,
wrapping component, function, operation and cause for diagnostics. -/
structure InternalServerErrorResponse where
  component : String
  function_name : String
  operation : String
  detail : String
deriving DecidableEq, Repr

/-- Modelled from the spec: `InternalServerErrorResponse::new`. -/
def InternalServerErrorResponse.new (c f o d : String) : InternalServerErrorResponse :=
  ⟨c, f, o, d⟩

/-- schema/auth.rs `LoginRequest`. -/
structure LoginRequest where
  user_name : String
  password : String
deriving DecidableEq, Repr

/-- schema/auth.rs `LoginResponse`; the formatted `exp`/`exp_refresh_token`
date strings are modelled by the underlying timestamps they format. -/
structure LoginResponse where
  exp : Int
  exp_in : Int
  exp_refresh_token : Int
  refresh_token : Jwt
  token : Jwt
  token_type : String
deriving DecidableEq, Repr

/-- schema/auth.rs `LoginResponses` (statuses 200 / 400 / 500). -/
inductive LoginResponses where
  | Ok (body : LoginResponse)
  | BadRequet (body : BadRequestResponse)
  | InternalServerError (body : InternalServerErrorResponse)
deriving DecidableEq, Repr

/-- HTTP status of each `LoginResponses` variant, from its `#[oai(status = _)]`. -/
def LoginResponses.status : LoginResponses → Nat
  | .Ok _ => 200
  | .BadRequet _ => 400
  | .InternalServerError _ => 500

/-- schema/auth.rs `RefreshTokenRequest`. -/
structure RefreshTokenRequest where
  refresh_token : Jwt
deriving DecidableEq, Repr

/-- schema/auth.rs `RefreshTokenResponse`. -/
structure RefreshTokenResponse where
  exp : Int
  exp_in : Int
  exp_refresh_token : Int
  refresh_token : Jwt
  token : Jwt
  token_type : String
deriving DecidableEq, Repr

/-- schema/auth.rs `RefreshTokenResponses` (statuses 200 / 400 / 401 / 500). -/
inductive RefreshTokenResponses where
  | Ok (body : RefreshTokenResponse)
  | BadRequet (body : BadRequestResponse)
  | Unauthorized (body : UnauthorizedResponse)
  | InternalServerError (body : InternalServerErrorResponse)
deriving DecidableEq, Repr

/-- HTTP status of each `RefreshTokenResponses` variant. -/
def RefreshTokenResponses.status : RefreshTokenResponses → Nat
  | .Ok _ => 200
  | .BadRequet _ => 400
  | .Unauthorized _ => 401
  | .InternalServerError _ => 500

/-- schema/auth.rs `LogoutResponses` (statuses 204 / 401 / 500). -/
inductive LogoutResponses where
  | NoContent
  | Unauthorized (body : UnauthorizedResponse)
  | InternalServerError (body : InternalServerErrorResponse)
deriving DecidableEq, Repr

/-- HTTP status of each `LogoutResponses` variant. -/
def LogoutResponses.status : LogoutResponses → Nat
  | .NoContent => 204
  | .Unauthorized _ => 401
  | .InternalServerError _ => 500

/-- route/auth.rs `auth_login`: username+profile lookup, password verification,
token pair minting, session write, 200 response; both "absent" and "wrong
password" yield the 400 `Invalid credentials` body. Returns the response and
the Redis store after the request. -/
def auth_login (db : Db) (store : RedisStore) (json : LoginRequest)
    (config : Config) (now : Int) : LoginResponses × RedisStore :=
  match get_user_by_username db json.user_name with
  | (some user, some _user_profile) =>
    (match verify_hash_password json.password user.password with
     | .error err =>
       (.InternalServerError (InternalServerErrorResponse.new "route.auth" "auth_login"
         "validate user password" err), store)
     | .ok false => (.BadRequet ⟨"Invalid credentials"⟩, store)
     | .ok true =>
       let token := generate_token_from_user user config now
       let refresh_token := generate_refresh_token_from_user user config now
       let store' := (add_session store user config token refresh_token).1
       (.Ok { exp := now + (config.jwt_exp : Int) * 60,
              exp_in := now + (config.jwt_exp : Int),
              exp_refresh_token := now + (config.jwt_refresh_exp : Int) * 60,
              refresh_token := refresh_token,
              token := token,
              token_type := "Bearer" }, store'))
  | _ => (.BadRequet ⟨"Invalid credentials"⟩, store)

/-- route/auth.rs `auth_refresh_token`: an `Err` from
`get_user_from_refresh_token` (decode or parse failure) maps to the 500
response; `Ok(None)` (user gone) maps to 401; otherwise a fresh pair is
minted and a new session written. -/
def auth_refresh_token (db : Db) (store : RedisStore) (json : RefreshTokenRequest)
    (config : Config) (now : Int) : RefreshTokenResponses × RedisStore :=
  match get_user_from_refresh_token db (some json.refresh_token) config now with
  | .error err =>
    (.InternalServerError (InternalServerErrorResponse.new "route.auth" "auth_refresh_token"
      "get user from refresh token" err), store)
  | .ok none => (.Unauthorized UnauthorizedResponse.mkDefault, store)
  | .ok (some refresh_token_user) =>
    let token := generate_token_from_user refresh_token_user config now
    let refresh_token := generate_refresh_token_from_user refresh_token_user config now
    let store' := (add_session store refresh_token_user config token refresh_token).1
    (.Ok { exp := now + (config.jwt_exp : Int) * 60,
           exp_in := now + (config.jwt_exp : Int),
           exp_refresh_token := now + (config.jwt_refresh_exp : Int) * 60,
           refresh_token := refresh_token,
           token := token,
           token_type := "Bearer" }, store')

/-- route/auth.rs `auth_logout`: resolve the user through the session store;
no user resolves to 401; otherwise `remove_session` on the bearer token
(`jwt_token.unwrap()`, whose `None` panic surfaces as a 500). -/
def auth_logout (db : Db) (store : RedisStore) (jwt_token : Option Jwt) :
    LogoutResponses × RedisStore :=
  match get_user_from_token db store jwt_token with
  | .error err =>
    (.InternalServerError (InternalServerErrorResponse.new "route.auth" "auth_logout"
      "get user from token" err), store)
  | .ok none => (.Unauthorized UnauthorizedResponse.mkDefault, store)
  | .ok (some _user) =>
    match jwt_token with
    | some t => (.NoContent, (remove_session store t).1)
    | none =>
      (.InternalServerError (InternalServerErrorResponse.new "route.auth" "auth_logout"
        "unwrap on None" "panicked"), store)

/-- Rust `u32::div_ceil` for a nonzero divisor: quotient plus one when a
remainder is left. -/
def u32_div_ceil (a b : Nat) : Nat :=
  if a % b = 0 then a / b else a / b + 1

/-- The `ORDER BY updated_date DESC` sort key: Postgres orders SQL `NULL`
first under `DESC`, so a null `updated_date` is the top element. -/
def updatedDateKey (r : RolePermission) : WithTop Int :=
  match r.updated_date with
  | none => ⊤
  | some d => (d : WithTop Int)

/-- Row order produced by `ORDER BY updated_date DESC`: most recently updated
(or null) first. -/
def updatedDescRP (a b : RolePermission) : Prop :=
  updatedDateKey b ≤ updatedDateKey a

instance : DecidableRel updatedDescRP :=
  fun a b => inferInstanceAs (Decidable (updatedDateKey b ≤ updatedDateKey a))

instance : IsTotal RolePermission updatedDescRP :=
  ⟨fun a b => le_total (updatedDateKey b) (updatedDateKey a)⟩

instance : IsTrans RolePermission updatedDescRP :=
  ⟨fun _ _ _ hab hbc => le_trans hbc hab⟩

/-- repository/role_permission.rs `get_all_role_permission`: filter by
`role_id`, order by `updated_date DESC`, page unless `all`; returns
`(rows, total_count, page_count)` with `page_count = 0` when `all` and
`count.div_ceil(page_size)` otherwise. -/
def get_all_role_permission (db : Db) (page_opt : Option Nat) (page_size_opt : Option Nat)
    (role_id : Uuid) (all_opt : Option Bool) : List RolePermission × Nat × Nat :=
  let page := page_opt.getD 1
  let page_size := page_size_opt.getD 10
  let all := all_opt.getD false
  let filtered := db.role_permissions.filter (fun r => decide (r.role_id = role_id))
  let sorted := List.insertionSort updatedDescRP filtered
  let data := if all then sorted else (sorted.drop ((page - 1) * page_size)).take page_size
  let count := filtered.length
  let num_page := if all then 0 else u32_div_ceil count page_size
  (data, count, num_page)

/-- repository/role_permission.rs `get_detail_role_permission`: lookup of the
exact `(role_id, permission_id, attribute_id)` triple. -/
def get_detail_role_permission (db : Db) (role_id permission_id attribute_id : Uuid) :
    Option RolePermission :=
  db.role_permissions.find? (fun rp =>
    decide (rp.role_id = role_id) && decide (rp.permission_id = permission_id) &&
      decide (rp.attribute_id = attribute_id))

/-- repository/role_permission.rs `create_role_permission`: plain `INSERT`. -/
def create_role_permission (db : Db) (role_permission : RolePermission) : Db :=
  { db with role_permissions := db.role_permissions ++ [role_permission] }

/-- repository/role_permission.rs `delete_role_permission`: `DELETE` of every
row matching the triple. -/
def delete_role_permission (db : Db) (role_permission : RolePermission) : Db :=
  { db with role_permissions := db.role_permissions.filter (fun rp =>
      !(decide (rp.role_id = role_permission.role_id) &&
        decide (rp.permission_id = role_permission.permission_id) &&
        decide (rp.attribute_id = role_permission.attribute_id))) }

/-- repository/role.rs `get_role_by_id`: `id = $1 AND deleted_date IS NULL`. -/
def get_role_by_id (db : Db) (id : Uuid) : Option Role :=
  db.roles.find? (fun r => decide (r.id = id) && r.deleted_date.isNone)

/-- repository/permission.rs `get_permission_by_id`: `SELECT * WHERE id = $1`
(no soft-delete column on permissions). -/
def get_permission_by_id (db : Db) (id : Uuid) : Option Permission :=
  db.permissions.find? (fun p => decide (p.id = id))

/-- repository/permission_attribute.rs `get_permission_attribute_by_id`. -/
def get_permission_attribute_by_id (db : Db) (id : Uuid) : Option PermissionAttribute :=
  db.permission_attributes.find? (fun a => decide (a.id = id))

/-- repository/user.rs `upsert_user_group_roles`: delete every row with the
user's id, then reinsert the given rows in order. -/
def upsert_user_group_roles (db : Db) (user : User)
    (user_group_roles : List UserGroupRoles) : Db :=
  let remaining := db.user_group_roles.filter (fun r => decide (r.user_id ≠ some user.id))
  { db with user_group_roles := remaining ++ user_group_roles }

/-- Modelled from the spec: `update_permssion_attribute_list_by_permission` is
imported from `repository::permission_attribute_list` and called by
`route::permission::update_permission_api`, but its definition is not among
the sources; per §4.5 it deletes all `PermissionAttributeList` rows of the
permission and inserts one row per given attribute. -/
def update_permssion_attribute_list_by_permission (db : Db) (permission : Permission)
    (permission_attributes : List PermissionAttribute) : Db :=
  let remaining := db.permission_attribute_list.filter (fun r =>
    decide (r.permission_id ≠ permission.id))
  { db with permission_attribute_list :=
      remaining ++ permission_attributes.map (fun a => ⟨permission.id, a.id⟩) }

/-- schema/role_permission.rs `RolePermissionCreateRequest` (string ids, parsed
by the route). -/
structure RolePermissionCreateRequest where
  role_id : String
  permission_id : String
  attribute_id : String
deriving DecidableEq, Repr

/-- schema/role_permission.rs `RolePermissionCreateResponse`. -/
structure RolePermissionCreateResponse where
  role_id : String
  permission_id : String
  attribute_id : String
deriving DecidableEq, Repr

/-- schema/role_permission.rs `CreateRolePermissionResponses`
(statuses 201 / 400 / 401 / 500 — no 409 Conflict variant exists). -/
inductive CreateRolePermissionResponses where
  | Ok (body : RolePermissionCreateResponse)
  | BadRequest (body : BadRequestResponse)
  | Unauthorized (body : UnauthorizedResponse)
  | InternalServerError (body : InternalServerErrorResponse)
deriving DecidableEq, Repr

/-- HTTP status of each `CreateRolePermissionResponses` variant. -/
def CreateRolePermissionResponses.status : CreateRolePermissionResponses → Nat
  | .Ok _ => 201
  | .BadRequest _ => 400
  | .Unauthorized _ => 401
  | .InternalServerError _ => 500

/-- schema/role_permission.rs `DeleteRolePermissionResponses`
(statuses 204 / 400 / 401 / 404 / 500). -/
inductive DeleteRolePermissionResponses where
  | NoContent
  | BadRequest (body : BadRequestResponse)
  | Unauthorized (body : UnauthorizedResponse)
  | NotFound (body : NotFoundResponse)
  | InternalServerError (body : InternalServerErrorResponse)
deriving DecidableEq, Repr

/-- HTTP status of each `DeleteRolePermissionResponses` variant. -/
def DeleteRolePermissionResponses.status : DeleteRolePermissionResponses → Nat
  | .NoContent => 204
  | .BadRequest _ => 400
  | .Unauthorized _ => 401
  | .NotFound _ => 404
  | .InternalServerError _ => 500

/-- route/role_permission.rs `create_role_permission_api`: bearer-token auth,
id parsing and entity validation (role excluding soft-deleted, permission,
attribute), duplicate-triple check answered with the 400 `already exists`
body, then the insert with `created_by`/`updated_by` = the request user and
both timestamps = now. Returns the response and the database after commit. -/
def create_role_permission_api (db : Db) (store : RedisStore)
    (json : RolePermissionCreateRequest) (jwt_token : Option Jwt) (now : Int) :
    CreateRolePermissionResponses × Db :=
  match get_user_from_token db store jwt_token with
  | .error err =>
    (.InternalServerError (InternalServerErrorResponse.new "route.role_permission"
      "create_role_permission_api" "get user from token" err), db)
  | .ok none => (.Unauthorized UnauthorizedResponse.mkDefault, db)
  | .ok (some request_user) =>
    match uuidParse json.role_id with
    | none => (.BadRequest ⟨"role with id " ++ json.role_id ++ " not found"⟩, db)
    | some role_id =>
      match get_role_by_id db role_id with
      | none => (.BadRequest ⟨"role with id " ++ json.role_id ++ " not found"⟩, db)
      | some _role =>
        match uuidParse json.permission_id with
        | none =>
          (.BadRequest ⟨"permission with id " ++ json.permission_id ++ " not found"⟩, db)
        | some permission_id =>
          match get_permission_by_id db permission_id with
          | none =>
            (.BadRequest ⟨"permission with id " ++ json.permission_id ++ " not found"⟩, db)
          | some _permission =>
            match uuidParse json.attribute_id with
            | none =>
              (.BadRequest ⟨"attribute with id " ++ json.attribute_id ++ " not found"⟩, db)
            | some attribute_id =>
              match get_permission_attribute_by_id db attribute_id with
              | none =>
                (.BadRequest ⟨"attribute with id " ++ json.attribute_id ++ " not found"⟩, db)
              | some _attribute =>
                match get_detail_role_permission db role_id permission_id attribute_id with
                | some _existing =>
                  (.BadRequest ⟨"role_permission with role_id = " ++ json.role_id ++
                    ", permission_id = " ++ json.permission_id ++ ", attribute_id = " ++
                    json.attribute_id ++ " already exists"⟩, db)
                | none =>
                  let new_role_permision : RolePermission :=
                    { role_id := role_id, permission_id := permission_id,
                      attribute_id := attribute_id,
                      created_by := some request_user.id, updated_by := some request_user.id,
                      created_date := some now, updated_date := some now }
                  (.Ok { role_id := toString role_id,
                         permission_id := toString permission_id,
                         attribute_id := toString attribute_id },
                   create_role_permission db new_role_permision)

/-- route/role_permission.rs `delete_role_permission_api`: same auth and
entity validation; a missing triple answers 404 `not exists`, a present one
is deleted. Returns the response and the database after commit. -/
def delete_role_permission_api (db : Db) (store : RedisStore)
    (role_id_q permission_id_q attribute_id_q : String) (jwt_token : Option Jwt) :
    DeleteRolePermissionResponses × Db :=
  match get_user_from_token db store jwt_token with
  | .error err =>
    (.InternalServerError (InternalServerErrorResponse.new "route.role_permission"
      "delete_role_permission_api" "get user from token" err), db)
  | .ok none => (.Unauthorized UnauthorizedResponse.mkDefault, db)
  | .ok (some _request_user) =>
    match uuidParse role_id_q with
    | none => (.BadRequest ⟨"role with id " ++ role_id_q ++ " not found"⟩, db)
    | some role_id =>
      match get_role_by_id db role_id with
      | none => (.BadRequest ⟨"role with id " ++ role_id_q ++ " not found"⟩, db)
      | some _role =>
        match uuidParse permission_id_q with
        | none => (.BadRequest ⟨"permission with id " ++ permission_id_q ++ " not found"⟩, db)
        | some permission_id =>
          match get_permission_by_id db permission_id with
          | none =>
            (.BadRequest ⟨"permission with id " ++ permission_id_q ++ " not found"⟩, db)
          | some _permission =>
            match uuidParse attribute_id_q with
            | none =>
              (.BadRequest ⟨"attribute with id " ++ attribute_id_q ++ " not found"⟩, db)
            | some attribute_id =>
              match get_permission_attribute_by_id db attribute_id with
              | none =>
                (.BadRequest ⟨"attribute with id " ++ attribute_id_q ++ " not found"⟩, db)
              | some _attribute =>
                match get_detail_role_permission db role_id permission_id attribute_id with
                | none =>
                  (.NotFound ⟨"role_permission with role_id = " ++ toString role_id ++
                    ", permission_id = " ++ toString permission_id ++ ", attribute_id = " ++
                    toString attribute_id ++ " not exists"⟩, db)
                | some role_permission =>
                  (.NoContent, delete_role_permission db role_permission)

/-- Deleting a key removes every entry stored under it. -/
theorem redisGet_redisDel_self (store : RedisStore) (key : Jwt) :
    redisGet (redisDel store key) key = none := by
  unfold redisGet redisDel
  rw [Option.map_eq_none', List.find?_eq_none]
  intro e he
  have := (List.mem_filter.mp he).2
  simp_all

/-- `u32::div_ceil` agrees with the mathematical ceiling of the division for a
nonzero divisor. -/
theorem u32_div_ceil_eq_ceilDiv (n m : Nat) (hm : 0 < m) : u32_div_ceil n m = n ⌈/⌉ m := by
  rw [Nat.ceilDiv_eq_add_pred_div]
  obtain ⟨q, r, hr_lt, rfl⟩ : ∃ q r, r < m ∧ n = m * q + r :=
    ⟨n / m, n % m, Nat.mod_lt _ hm, (Nat.div_add_mod n m).symm⟩
  unfold u32_div_ceil
  have hmod : (m * q + r) % m = r := by
    rw [Nat.mul_add_mod, Nat.mod_eq_of_lt hr_lt]
  have hdiv : (m * q + r) / m = q := by
    rw [Nat.mul_add_div hm, Nat.div_eq_of_lt hr_lt, Nat.add_zero]
  rw [hmod, hdiv]
  by_cases hr : r = 0
  · subst hr
    have h1 : m * q + 0 + m - 1 = m * q + (m - 1) := by omega
    rw [h1, Nat.mul_add_div hm, Nat.div_eq_of_lt (by omega), if_pos rfl, Nat.add_zero]
  · have h1 : m * q + r + m - 1 = m * (q + 1) + (r - 1) := by
      rw [Nat.mul_succ]; omega
    rw [h1, Nat.mul_add_div hm, Nat.div_eq_of_lt (by omega), if_neg hr, Nat.add_zero]

/-- C7 (counterexample). The claim asserts that decoding fails as soon as the
claim's `exp` timestamp has passed; with `Validation::default()`'s 60-second
leeway, a token whose `exp = 100` still decodes successfully at `now = 101`. -/
theorem token_round_trip_counterexample :
    (100 : Int) < 101 ∧
      decode_token (encode_token ⟨"7", "alice", 100⟩ "k") "k" 101 =
        .ok ⟨"7", "alice", 100⟩ := by
  constructor
  · decide
  · rfl

/-- C7 (amended). Token round trip: for every claims value `c` and non-empty
secret `s`, decoding the encoding of `c` under `s` at any time up to
`exp + 60` (the `jsonwebtoken` default leeway) yields `c` again; decoding
under a different secret fails with a signature error; and decoding more than
the 60-second leeway past `exp` fails with an expiry error. -/
theorem token_round_trip_amended (c : Claims) (s s2 : String) (now : Int)
    (_hs : s ≠ "") :
    (now ≤ c.exp + jwtLeeway → decode_token (encode_token c s) s now = .ok c) ∧
    (s2 ≠ s → decode_token (encode_token c s) s2 now = .error "InvalidSignature") ∧
    (c.exp + jwtLeeway < now →
      decode_token (encode_token c s) s now = .error "ExpiredSignature") := by
  refine ⟨fun h => ?_, fun h => ?_, fun h => ?_⟩
  · cases c with
    | mk id user_name exp =>
      unfold decode_token encode_token hmacSign
      have hexp : ¬(exp < now - jwtLeeway) := by
        simp only [jwtLeeway] at h ⊢; omega
      simp [hexp]
  · unfold decode_token encode_token hmacSign
    have hne : (⟨⟨c.id, c.user_name, c.exp, none⟩, (s, ⟨c.id, c.user_name, c.exp, none⟩)⟩ :
        Jwt).sig ≠ (s2, (⟨⟨c.id, c.user_name, c.exp, none⟩,
          (s, ⟨c.id, c.user_name, c.exp, none⟩)⟩ : Jwt).payload) := by
      simp [Ne.symm h]
    simp [hne]
  · unfold decode_token encode_token hmacSign
    have hexp : (c.exp < now - jwtLeeway) := by
      simp only [jwtLeeway] at h ⊢; omega
    simp [hexp]

/-- C7 (witness for the amended theorem at concrete inputs). -/
theorem token_round_trip_amended_witness :
    decode_token (encode_token ⟨"7", "a", 100⟩ "k") "k" 50 = .ok ⟨"7", "a", 100⟩ ∧
    decode_token (encode_token ⟨"7", "a", 100⟩ "k") "j" 50 = .error "InvalidSignature" ∧
    decode_token (encode_token ⟨"7", "a", 100⟩ "k") "k" 200 = .error "ExpiredSignature" :=
  ⟨(token_round_trip_amended ⟨"7", "a", 100⟩ "k" "j" 50 (by decide)).1 (by decide),
   (token_round_trip_amended ⟨"7", "a", 100⟩ "k" "j" 50 (by decide)).2.1 (by decide),
   (token_round_trip_amended ⟨"7", "a", 100⟩ "k" "j" 200 (by decide)).2.2 (by decide)⟩

/-- C10. A refresh token is accepted by the access-token decoder: for every
refresh claims value with a future `exp` and every secret, `decode_token`
on `encode_refresh_token`'s output succeeds and returns access claims with
the same `id`, `user_name` and `exp` (serde ignores the `type_key` field when
deserializing `Claims`). -/
theorem refresh_token_decodes_as_access (r : ClaimsRefresh) (s : String) (now : Int)
    (hfuture : now < r.exp) :
    decode_token (encode_refresh_token r s) s now = .ok ⟨r.id, r.user_name, r.exp⟩ := by
  unfold decode_token encode_refresh_token hmacSign
  have hexp : ¬(r.exp < now - jwtLeeway) := by
    simp only [jwtLeeway]; omega
  simp [hexp]

/-- C10 (witness). -/
theorem refresh_token_decodes_as_access_witness :
    decode_token (encode_refresh_token ⟨"7", "a", 100, "refresh"⟩ "k") "k" 50 =
      .ok ⟨"7", "a", 100⟩ :=
  refresh_token_decodes_as_access ⟨"7", "a", 100, "refresh"⟩ "k" 50 (by decide)

/-- Concrete configuration: secret `"k"`, access lifetime 15 minutes, refresh
lifetime 60 minutes. -/
def cfg15 : Config := ⟨"k", 15, 60⟩

/-- Concrete live user (id 7, password `"pw"`). -/
def okAlice : User :=
  ⟨7, "alice", hash_password "pw" "salt", some true, some false, none, none,
   some 1, some 1, none⟩

/-- Concrete soft-deleted user (id 7, `deleted_date` set, password `"pw"`). -/
def softAlice : User :=
  ⟨7, "alice", hash_password "pw" "salt", some true, some false, none, none,
   some 1, some 1, some 5⟩

/-- Profile row for user 7. -/
def aliceProfile : UserProfile := ⟨7, 7, none, none, none, none⟩

/-- Database containing only the live user 7 and its profile. -/
def dbAuth : Db := ⟨[okAlice], [aliceProfile], [], [], [], [], [], []⟩

/-- Database containing only the soft-deleted user 7 and its profile. -/
def dbC1 : Db := ⟨[softAlice], [aliceProfile], [], [], [], [], [], []⟩

/-- Access token minted for user 7 at time 0 under `cfg15`. -/
def tokC3 : Jwt := generate_token_from_user okAlice cfg15 0

/-- Refresh token minted for user 7 at time 0 under `cfg15`. -/
def rtC3 : Jwt := generate_refresh_token_from_user okAlice cfg15 0

/-- C3 (code bug). The TTL handed to `SET .. EX` is the raw `config.jwt_exp`
value — a count of minutes passed as Redis seconds — while the minted access
token's `exp` claim falls due `jwt_exp * 60` seconds after issuance: with
`jwt_exp = 15` the session entry expires after 15 seconds but the access
token after 900. The claimed TTL of `jwt_exp * 60` seconds is not what the
code passes. -/
theorem session_ttl_unit_mismatch :
    (∀ (store : RedisStore) (user : User) (config : Config) (token rt : Jwt),
      (add_session store user config token rt).2 = config.jwt_exp) ∧
    (∀ (uid un : String) (config : Config) (now : Int),
      (Claims.new uid un config now).exp - now = (config.jwt_exp : Int) * 60) ∧
    (add_session [] okAlice cfg15 tokC3 rtC3).2 = 15 ∧
    (Claims.new "7" "alice" cfg15 0).exp = 900 ∧
    (15 : Nat) ≠ 15 * 60 := by
  refine ⟨fun _ _ _ _ _ => rfl, fun _ _ _ _ => by simp [Claims.new], rfl, by decide, by decide⟩

/-- C6. `remove_session` returns `false` exactly when the access token has no
stored entry; when an entry is present it issues a delete for the stored
`refresh_token` key and for the access-token key, returns `true`, and the
access-token entry is gone afterwards. -/
theorem remove_session_spec (store : RedisStore) (token : Jwt) :
    ((remove_session store token).2 = false ↔ get_session store token = none) ∧
    (∀ sd, get_session store token = some sd →
      remove_session store token =
        (redisDel (redisDel store sd.refresh_token) token, true)) ∧
    (∀ sd, get_session store token = some sd →
      redisGet (remove_session store token).1 token = none) := by
  cases h : redisGet store token with
  | none =>
    refine ⟨by simp [remove_session, get_session, h], ?_, ?_⟩ <;>
      · intro sd hsd
        simp [get_session, h] at hsd
  | some sd0 =>
    refine ⟨by simp [remove_session, get_session, h], ?_, ?_⟩ <;>
      intro sd hsd <;> rw [get_session, h] at hsd <;> cases hsd
    · simp [remove_session, h]
    · simp [remove_session, h, redisGet_redisDel_self]

/-- C6 (witness): a store holding one session under `tokC3`. -/
theorem remove_session_spec_witness :
    remove_session [(tokC3, ⟨"7", rtC3⟩)] tokC3 = ([], true) := by
  have h := (remove_session_spec [(tokC3, ⟨"7", rtC3⟩)] tokC3).2.1 ⟨"7", rtC3⟩ (by decide)
  rw [h]
  decide

/-- C1 (code bug). `get_user_by_username` has no `deleted_date IS NULL`
filter, so a soft-deleted user with the correct password logs in with a
200 response instead of being rejected with the 400 `Invalid credentials`
body the claim (and every other user lookup's soft-delete default)
prescribes. -/
theorem login_allows_soft_deleted_user :
    softAlice.deleted_date = some 5 ∧
    verify_hash_password "pw" softAlice.password = .ok true ∧
    (get_user_by_username dbC1 "alice").1 = some softAlice ∧
    ((auth_login dbC1 [] ⟨"alice", "pw"⟩ cfg15 1000).1).status = 200 := by
  refine ⟨rfl, rfl, rfl, rfl⟩

/-- Refresh token for user 7 that is already expired at `now = 200`
(`exp = 100`, beyond the 60-second leeway). -/
def expiredRT : Jwt := encode_refresh_token ⟨"7", "alice", 100, "refresh"⟩ "k"

/-- Refresh token for user 7 valid far into the future. -/
def validRT : Jwt := encode_refresh_token ⟨"7", "alice", 100000, "refresh"⟩ "k"

/-- Database with no users at all. -/
def dbEmpty : Db := ⟨[], [], [], [], [], [], [], []⟩

/-- C2 (counterexample). An expired refresh token makes
`get_user_from_refresh_token` return `Err`, which `auth_refresh_token`
answers with the 500 internal-server-error response — not the 401
`Unauthorized` the claim asserts. -/
theorem refresh_undecodable_counterexample :
    decode_refresh_token expiredRT cfg15.jwt_secret 200 = .error "ExpiredSignature" ∧
    ((auth_refresh_token dbAuth [] ⟨expiredRT⟩ cfg15 200).1).status = 500 ∧
    ((auth_refresh_token dbAuth [] ⟨expiredRT⟩ cfg15 200).1).status ≠ 401 := by
  refine ⟨rfl, rfl, by decide⟩

/-- C2 (amended). A refresh token that cannot be decoded (bad signature,
missing `type_key`, or expired) yields the 500 internal-server-error
response; the 401 `Unauthorized` response is produced exactly when the token
decodes but the user it names no longer resolves. -/
theorem refresh_undecodable_amended (db : Db) (store : RedisStore) (t : Jwt)
    (config : Config) (now : Int) :
    (∀ e, decode_refresh_token t config.jwt_secret now = .error e →
      ((auth_refresh_token db store ⟨t⟩ config now).1).status = 500) ∧
    (∀ claims uid, decode_refresh_token t config.jwt_secret now = .ok claims →
      uuidParse claims.id = some uid → (get_user_by_id db uid none).1 = none →
      (auth_refresh_token db store ⟨t⟩ config now).1 =
        .Unauthorized UnauthorizedResponse.mkDefault) := by
  constructor
  · intro e he
    simp [auth_refresh_token, get_user_from_refresh_token, he,
      RefreshTokenResponses.status]
  · intro claims uid hd hp hu
    simp [auth_refresh_token, get_user_from_refresh_token, hd, hp, hu]

/-- C2 (witness for the amended theorem): the expired token against the live
database, and the valid token against an empty database. -/
theorem refresh_undecodable_amended_witness :
    ((auth_refresh_token dbAuth [] ⟨expiredRT⟩ cfg15 200).1).status = 500 ∧
    (auth_refresh_token dbEmpty [] ⟨validRT⟩ cfg15 200).1 =
      .Unauthorized UnauthorizedResponse.mkDefault :=
  ⟨(refresh_undecodable_amended dbAuth [] expiredRT cfg15 200).1 "ExpiredSignature" rfl,
   (refresh_undecodable_amended dbEmpty [] validRT cfg15 200).2
     ⟨"7", "alice", 100000, "refresh"⟩ 7 rfl rfl rfl⟩

/-- C4. Logout succeeds exactly once per session: with a stored session whose
`user_id` parses to a live user, the first logout on the token returns 204
and removes the session, and a second logout with the same token is answered
with 401 `Unauthorized`. -/
theorem logout_exactly_once (db : Db) (store : RedisStore) (t : Jwt)
    (sd : SessionData) (u : User)
    (hsess : get_session store t = some sd)
    (hparse : uuidParse sd.user_id = some u.id)
    (huser : (get_user_by_id db u.id none).1 = some u) :
    (auth_logout db store (some t)).1 = .NoContent ∧
    (auth_logout db ((auth_logout db store (some t)).2) (some t)).1 =
      .Unauthorized UnauthorizedResponse.mkDefault := by
  have step1 : get_user_from_token db store (some t) = .ok (some u) := by
    simp [get_user_from_token, hsess, hparse, huser]
  have hsess' : redisGet store t = some sd := hsess
  have hrm : (auth_logout db store (some t)).2 = (remove_session store t).1 := by
    simp [auth_logout, step1]
  constructor
  · simp [auth_logout, step1]
  · have hnone : get_session (auth_logout db store (some t)).2 t = none := by
      rw [hrm]
      unfold remove_session
      rw [hsess']
      exact redisGet_redisDel_self _ t
    generalize hgen : (auth_logout db store (some t)).2 = store2 at hnone ⊢
    have step2 : get_user_from_token db store2 (some t) = .ok none := by
      simp [get_user_from_token, hnone]
    simp [auth_logout, step2]

/-- C4 (witness): the live user 7, one stored session. -/
theorem logout_exactly_once_witness :
    (auth_logout dbAuth [(tokC3, ⟨"7", rtC3⟩)] (some tokC3)).1 = .NoContent ∧
    (auth_logout dbAuth ((auth_logout dbAuth [(tokC3, ⟨"7", rtC3⟩)] (some tokC3)).2)
        (some tokC3)).1 = .Unauthorized UnauthorizedResponse.mkDefault :=
  logout_exactly_once dbAuth [(tokC3, ⟨"7", rtC3⟩)] tokC3 ⟨"7", rtC3⟩ okAlice rfl rfl rfl

/-- Role 1, live. -/
def roleR : Role := ⟨1, "admin", none, some true, none, none, some 1, some 1, none⟩

/-- Permission 2. -/
def permP : Permission := ⟨2, "perm", some true, some true, some true, none, none, none,
  some 1, some 1⟩

/-- Attribute 3. -/
def attrA : PermissionAttribute := ⟨3, "attr", none, some 1, some 1⟩

/-- Existing grant triple (1, 2, 3). -/
def rpExisting : RolePermission := ⟨1, 2, 3, some 7, some 7, some 1, some 1⟩

/-- Database with user 7, role 1, permission 2, attribute 3 and the grant
triple (1, 2, 3) present. -/
def dbC5 : Db := ⟨[okAlice], [aliceProfile], [roleR], [permP], [attrA], [rpExisting], [], []⟩

/-- Same database with the grant triple absent. -/
def dbC5b : Db := ⟨[okAlice], [aliceProfile], [roleR], [permP], [attrA], [], [], []⟩

/-- Session store authenticating user 7 under `tokC3`. -/
def storeC5 : RedisStore := [(tokC3, ⟨"7", rtC3⟩)]

/-- C5 (counterexample). Creating an already-present grant triple is rejected
with the 400 `BadRequest` response — the create-response enum has no 409
`Conflict` variant — though the store is indeed left unchanged. -/
theorem grant_conflict_counterexample :
    get_detail_role_permission dbC5 1 2 3 = some rpExisting ∧
    (create_role_permission_api dbC5 storeC5 ⟨"1", "2", "3"⟩ (some tokC3) 50).1.status = 400 ∧
    (create_role_permission_api dbC5 storeC5 ⟨"1", "2", "3"⟩ (some tokC3) 50).1.status ≠ 409 ∧
    (create_role_permission_api dbC5 storeC5 ⟨"1", "2", "3"⟩ (some tokC3) 50).2 = dbC5 := by
  refine ⟨rfl, rfl, by decide, rfl⟩

/-- C5 (amended). With an authenticated request and resolvable role,
permission and attribute: creating an existing triple is rejected with the
400 `already exists` BadRequest (not a distinct Conflict error) and leaves
the store unchanged; creating an absent triple succeeds and inserts exactly
that row; deleting an absent triple is rejected with 404 `NotFound` leaving
the store unchanged; deleting a present triple succeeds and removes it. -/
theorem grant_create_delete_amended (db : Db) (store : RedisStore) (t : Jwt) (u : User)
    (rids pids aids : String) (rid pid aid : Uuid) (role : Role) (perm : Permission)
    (attr : PermissionAttribute) (now : Int)
    (hauth : get_user_from_token db store (some t) = .ok (some u))
    (hrid : uuidParse rids = some rid) (hrole : get_role_by_id db rid = some role)
    (hpid : uuidParse pids = some pid) (hperm : get_permission_by_id db pid = some perm)
    (haid : uuidParse aids = some aid)
    (hattr : get_permission_attribute_by_id db aid = some attr) :
    (∀ rp, get_detail_role_permission db rid pid aid = some rp →
      (create_role_permission_api db store ⟨rids, pids, aids⟩ (some t) now).1.status = 400 ∧
      (create_role_permission_api db store ⟨rids, pids, aids⟩ (some t) now).2 = db) ∧
    (get_detail_role_permission db rid pid aid = none →
      (create_role_permission_api db store ⟨rids, pids, aids⟩ (some t) now).1 =
        .Ok ⟨toString rid, toString pid, toString aid⟩ ∧
      (create_role_permission_api db store ⟨rids, pids, aids⟩ (some t) now).2 =
        create_role_permission db ⟨rid, pid, aid, some u.id, some u.id, some now, some now⟩) ∧
    (get_detail_role_permission db rid pid aid = none →
      (delete_role_permission_api db store rids pids aids (some t)).1.status = 404 ∧
      (delete_role_permission_api db store rids pids aids (some t)).2 = db) ∧
    (∀ rp, get_detail_role_permission db rid pid aid = some rp →
      (delete_role_permission_api db store rids pids aids (some t)).1 = .NoContent ∧
      (delete_role_permission_api db store rids pids aids (some t)).2 =
        delete_role_permission db rp) := by
  refine ⟨?_, ?_, ?_, ?_⟩
  · intro rp hdup
    simp [create_role_permission_api, hauth, hrid, hrole, hpid, hperm, haid, hattr, hdup,
      CreateRolePermissionResponses.status]
  · intro habs
    simp [create_role_permission_api, hauth, hrid, hrole, hpid, hperm, haid, hattr, habs]
  · intro habs
    simp [delete_role_permission_api, hauth, hrid, hrole, hpid, hperm, haid, hattr, habs,
      DeleteRolePermissionResponses.status]
  · intro rp hdup
    simp [delete_role_permission_api, hauth, hrid, hrole, hpid, hperm, haid, hattr, hdup]

/-- C5 (witness for the amended theorem): both databases, all four branches. -/
theorem grant_create_delete_amended_witness :
    (create_role_permission_api dbC5 storeC5 ⟨"1", "2", "3"⟩ (some tokC3) 50).1.status = 400 ∧
    (create_role_permission_api dbC5b storeC5 ⟨"1", "2", "3"⟩ (some tokC3) 50).1 =
      .Ok ⟨"1", "2", "3"⟩ ∧
    (delete_role_permission_api dbC5b storeC5 "1" "2" "3" (some tokC3)).1.status = 404 ∧
    (delete_role_permission_api dbC5 storeC5 "1" "2" "3" (some tokC3)).1 = .NoContent :=
  ⟨((grant_create_delete_amended dbC5 storeC5 tokC3 okAlice "1" "2" "3" 1 2 3 roleR permP
      attrA 50 rfl rfl rfl rfl rfl rfl rfl).1 rpExisting rfl).1,
   ((grant_create_delete_amended dbC5b storeC5 tokC3 okAlice "1" "2" "3" 1 2 3 roleR permP
      attrA 50 rfl rfl rfl rfl rfl rfl rfl).2.1 rfl).1,
   ((grant_create_delete_amended dbC5b storeC5 tokC3 okAlice "1" "2" "3" 1 2 3 roleR permP
      attrA 50 rfl rfl rfl rfl rfl rfl rfl).2.2.1 rfl).1,
   ((grant_create_delete_amended dbC5 storeC5 tokC3 okAlice "1" "2" "3" 1 2 3 roleR permP
      attrA 50 rfl rfl rfl rfl rfl rfl rfl).2.2.2 rpExisting rfl).1⟩

/-- C8. List replacement is a total overwrite: after
`upsert_user_group_roles` with rows all owned by the user, the rows stored
for that user are exactly the given rows and other users' rows are
untouched; after `update_permssion_attribute_list_by_permission`, the join
rows of the permission are exactly one per given attribute and other
permissions' rows are untouched — independent of the previous contents. -/
theorem list_replacement_total (db : Db) (user : User) (items : List UserGroupRoles)
    (hitems : ∀ it ∈ items, it.user_id = some user.id)
    (permission : Permission) (attrs : List PermissionAttribute) :
    ((upsert_user_group_roles db user items).user_group_roles.filter
        (fun r => decide (r.user_id = some user.id)) = items) ∧
    ((upsert_user_group_roles db user items).user_group_roles.filter
        (fun r => decide (r.user_id ≠ some user.id)) =
      db.user_group_roles.filter (fun r => decide (r.user_id ≠ some user.id))) ∧
    ((update_permssion_attribute_list_by_permission db permission
        attrs).permission_attribute_list.filter
          (fun r => decide (r.permission_id = permission.id)) =
      attrs.map (fun a => ⟨permission.id, a.id⟩)) ∧
    ((update_permssion_attribute_list_by_permission db permission
        attrs).permission_attribute_list.filter
          (fun r => decide (r.permission_id ≠ permission.id)) =
      db.permission_attribute_list.filter
        (fun r => decide (r.permission_id ≠ permission.id))) := by
  refine ⟨?_, ?_, ?_, ?_⟩
  · unfold upsert_user_group_roles
    rw [List.filter_append, List.filter_filter]
    have h1 : List.filter
        (fun a => decide (a.user_id = some user.id) && decide (a.user_id ≠ some user.id))
        db.user_group_roles = [] := by
      apply List.filter_eq_nil_iff.mpr
      intro a _
      simp
    have h2 : List.filter (fun r => decide (r.user_id = some user.id)) items = items :=
      List.filter_eq_self.mpr (fun a ha => by simp [hitems a ha])
    rw [h1, h2, List.nil_append]
  · unfold upsert_user_group_roles
    rw [List.filter_append, List.filter_filter]
    have h1 : List.filter (fun r => decide (r.user_id ≠ some user.id)) items = [] := by
      apply List.filter_eq_nil_iff.mpr
      intro a ha
      simp [hitems a ha]
    have h2 : List.filter
        (fun a => decide (a.user_id ≠ some user.id) && decide (a.user_id ≠ some user.id))
        db.user_group_roles =
        List.filter (fun r => decide (r.user_id ≠ some user.id)) db.user_group_roles := by
      simp [Bool.and_self]
    rw [h1, h2, List.append_nil]
  · unfold update_permssion_attribute_list_by_permission
    rw [List.filter_append, List.filter_filter]
    have h1 : List.filter
        (fun a => decide (a.permission_id = permission.id) &&
          decide (a.permission_id ≠ permission.id)) db.permission_attribute_list = [] := by
      apply List.filter_eq_nil_iff.mpr
      intro a _
      simp
    have h2 : List.filter (fun r => decide (r.permission_id = permission.id))
        (attrs.map (fun a => (⟨permission.id, a.id⟩ : PermissionAttributeList))) =
        attrs.map (fun a => (⟨permission.id, a.id⟩ : PermissionAttributeList)) :=
      List.filter_eq_self.mpr (fun a ha => by
        obtain ⟨b, _, rfl⟩ := List.mem_map.mp ha
        simp)
    rw [h1, h2, List.nil_append]
  · unfold update_permssion_attribute_list_by_permission
    rw [List.filter_append, List.filter_filter]
    have h1 : List.filter (fun r => decide (r.permission_id ≠ permission.id))
        (attrs.map (fun a => (⟨permission.id, a.id⟩ : PermissionAttributeList))) = [] := by
      apply List.filter_eq_nil_iff.mpr
      intro a ha
      obtain ⟨b, _, rfl⟩ := List.mem_map.mp ha
      simp
    have h2 : List.filter
        (fun a => decide (a.permission_id ≠ permission.id) &&
          decide (a.permission_id ≠ permission.id)) db.permission_attribute_list =
        List.filter (fun r => decide (r.permission_id ≠ permission.id))
          db.permission_attribute_list := by
      simp [Bool.and_self]
    rw [h1, h2, List.append_nil]

/-- C8 (witness): replacing user 7's `{(role 1, group 1), (role 2, group 1)}`
with `{(role 3, group 2)}` and permission 2's attributes `{3, 4}` with `{5}`. -/
theorem list_replacement_total_witness :
    ((upsert_user_group_roles
        ⟨[okAlice], [aliceProfile], [], [], [], [], [],
          [⟨100, some 7, some 1, some 1⟩, ⟨101, some 7, some 1, some 2⟩]⟩
        okAlice [⟨102, some 7, some 2, some 3⟩]).user_group_roles.filter
          (fun r => decide (r.user_id = some okAlice.id)) =
      [⟨102, some 7, some 2, some 3⟩]) ∧
    ((update_permssion_attribute_list_by_permission
        ⟨[okAlice], [aliceProfile], [], [permP], [], [], [⟨2, 3⟩, ⟨2, 4⟩],
          []⟩
        permP [⟨5, "attr5", none, none, none⟩]).permission_attribute_list.filter
          (fun r => decide (r.permission_id = permP.id)) =
      [⟨2, 5⟩]) :=
  ⟨(list_replacement_total
      ⟨[okAlice], [aliceProfile], [], [], [], [], [],
        [⟨100, some 7, some 1, some 1⟩, ⟨101, some 7, some 1, some 2⟩]⟩
      okAlice [⟨102, some 7, some 2, some 3⟩]
      (by intro it hit; simp at hit; subst hit; rfl)
      permP [⟨5, "attr5", none, none, none⟩]).1,
   (list_replacement_total
      ⟨[okAlice], [aliceProfile], [], [permP], [], [], [⟨2, 3⟩, ⟨2, 4⟩], []⟩
      okAlice []
      (by intro it hit; simp at hit)
      permP [⟨5, "attr5", none, none, none⟩]).2.2.1⟩

/-- C9. Grant-listing pagination math: with `all = true` the returned
`page_count` is 0 regardless of the total; otherwise (for a nonzero page
size, `u32::div_ceil` panicking on zero) `page_count` is the ceiling of
`total_count / page_size`; and the returned rows are ordered by
`updated_date DESC`, most recently updated first. -/
theorem grant_listing_pagination (db : Db) (page_opt page_size_opt : Option Nat)
    (role_id : Uuid) (all_opt : Option Bool)
    (hps : 0 < page_size_opt.getD 10) :
    (all_opt = some true →
      (get_all_role_permission db page_opt page_size_opt role_id all_opt).2.2 = 0) ∧
    (all_opt.getD false = false →
      (get_all_role_permission db page_opt page_size_opt role_id all_opt).2.2 =
        (get_all_role_permission db page_opt page_size_opt role_id all_opt).2.1 ⌈/⌉
          page_size_opt.getD 10) ∧
    List.Pairwise updatedDescRP
      (get_all_role_permission db page_opt page_size_opt role_id all_opt).1 := by
  refine ⟨?_, ?_, ?_⟩
  · intro h
    subst h
    simp [get_all_role_permission]
  · intro h
    simp only [get_all_role_permission, h, if_false, Bool.false_eq_true]
    exact u32_div_ceil_eq_ceilDiv _ _ hps
  · have hsorted : List.Pairwise updatedDescRP
        (List.insertionSort updatedDescRP
          (db.role_permissions.filter (fun r => decide (r.role_id = role_id)))) :=
      List.sorted_insertionSort updatedDescRP _
    unfold get_all_role_permission
    cases hall : (all_opt.getD false) with
    | true => simpa [hall] using hsorted
    | false =>
      simp only [hall, if_false, Bool.false_eq_true]
      exact List.Pairwise.sublist
        ((List.take_sublist _ _).trans (List.drop_sublist _ _)) hsorted

/-- Database with 23 grant rows for role 1 (distinct attributes, ascending
`updated_date`). -/
def dbC9 : Db :=
  ⟨[], [], [], [], [],
   (List.range 23).map (fun i => ⟨1, 2, i, none, none, none, some (i : Int)⟩), [], []⟩

/-- C9 (witness): `total_count = 23`, default `page_size = 10` gives
`page_count = 3`; `all = true` gives `page_count = 0`. -/
theorem grant_listing_pagination_witness :
    (get_all_role_permission dbC9 none none 1 none).2.1 = 23 ∧
    (get_all_role_permission dbC9 none none 1 none).2.2 = 23 ⌈/⌉ 10 ∧
    (get_all_role_permission dbC9 none none 1 none).2.2 = 3 ∧
    (get_all_role_permission dbC9 none none 1 (some true)).2.2 = 0 := by
  have h := grant_listing_pagination dbC9 none none 1 none (by decide)
  have hall := grant_listing_pagination dbC9 none none 1 (some true) (by decide)
  refine ⟨rfl, ?_, rfl, hall.1 rfl⟩
  have h2 := h.2.1 rfl
  rw [h2]
  rfl
